import Mathlib

/-!
Verification development for the directord component-contract core.

The Python sources embedded here, function by function:
  * `src/director/utils.py` — `run_command`, `ClientStatus` (a context manager
    sending three-frame status messages over a socket);
  * `src/directord/components/__init__.py` — `ComponentBase` (`run_command`,
    `set_cache`, `file_blueprinter`, `blueprinter`, `sanitized_args`,
    the default argument schema built in `args`);
  * `src/components/container_image.py` — `Component.server` for the
    container-image component.

Modelling conventions: Python dictionaries are association lists
(`List (String × α)`) with in-place-update semantics mirroring CPython
dicts; byte strings are `String`; raised exceptions are `Except PyErr`;
the external process, filesystem, socket and template engine are
parameters (oracles) supplied to the embedded functions.
-/

/-! ## Python-dict association lists -/

/-- Lookup in an association list (Python `d[k]` / `d.get(k)`). -/
def lookupA {α : Type} : List (String × α) → String → Option α
  | [], _ => none
  | (k0, v0) :: rest, k => if k0 = k then some v0 else lookupA rest k

/-- Python `d[k] = v`: replace in place if the key exists, else append.
This mirrors CPython dict insertion-order semantics. -/
def setA {α : Type} : List (String × α) → String → α → List (String × α)
  | [], k, v => [(k, v)]
  | (k0, v0) :: rest, k, v =>
    if k0 = k then (k0, v) :: rest else (k0, v0) :: setA rest k v

/-- Python `d.pop(k)`-style removal of a key. -/
def removeA {α : Type} (d : List (String × α)) (k : String) : List (String × α) :=
  d.filter (fun p => p.1 != k)

/-- Python `d.update(e)`: fold the overlay into the base dict. -/
def dictUpdate {α : Type} (d e : List (String × α)) : List (String × α) :=
  e.foldl (fun acc p => setA acc p.1 p.2) d

/-! ## Python exceptions -/

/-- The exceptions the embedded code can raise. -/
inductive PyErr where
  | attributeError : String → PyErr
  | systemExit : PyErr
  | typeError : PyErr
  | keyError : PyErr
  deriving Repr, DecidableEq

/-! ## `director/utils.py`: `ClientStatus`

`ClientStatus(socket, job_id, ctx)` sends `[job_id, ctx.job_processing,
ctx.nullbyte]` from `__init__`, exposes mutable `job_state` / `info` slots
(both initialised to `ctx.nullbyte`), and `__exit__` sends
`[self.job_id, self.job_state, self.info]`; the `__exit__` body has no
`return`, so Python returns `None` (falsy), which never suppresses an
in-flight exception.  The socket is modelled as the list of three-frame
messages sent; the code inside the `with` block is modelled as a function
from the mutable session state to a final state together with an optional
raised exception (the state at the point the exception escaped). -/

structure Ctx where
  nullbyte : String
  job_processing : String

structure CStat where
  job_id : String
  job_state : String
  info : String

/-- `ClientStatus.__init__`: the initial mutable state of the session. -/
def clientStatusInit (ctx : Ctx) (job_id : String) : CStat :=
  { job_id := job_id, job_state := ctx.nullbyte, info := ctx.nullbyte }

/-- The three-frame message sent by `ClientStatus.__init__`. -/
def clientStatusInitMsg (ctx : Ctx) (job_id : String) : List String :=
  [job_id, ctx.job_processing, ctx.nullbyte]

/-- The three-frame message sent by `ClientStatus.__exit__`. -/
def clientStatusExitMsg (s : CStat) : List String :=
  [s.job_id, s.job_state, s.info]

/-- The value returned by `ClientStatus.__exit__` (its body has no
`return` statement, so it is Python `None`). -/
def clientStatusExitRet : Option Bool := none

/-- Python truthiness of a context-manager `__exit__` return value. -/
def pyTruthyRet : Option Bool → Bool
  | none => false
  | some b => b

/-- Semantics of `with ClientStatus(socket, job_id, ctx): body`.
Returns the list of messages sent on the socket and the exception (if
any) propagating out of the statement.  Per Python, `__exit__` runs on
every exit path, and its return value suppresses the exception only when
truthy. -/
def withClientStatus {ε : Type} (ctx : Ctx) (job_id : String)
    (body : CStat → CStat × Option ε) : List (List String) × Option ε :=
  let s0 := clientStatusInit ctx job_id
  let r := body s0
  ([clientStatusInitMsg ctx job_id, clientStatusExitMsg r.1],
   if pyTruthyRet clientStatusExitRet then none else r.2)

/-! ## The container-image component's argument schema

`ComponentBase.args` builds an `argparse` parser with `--exec-help`
(`action="help"`), `--skip-cache`, `--run-once` (both `store_true`) and
`--timeout` (`type=int`, default 600); `Component.args` in
`src/components/container_image.py` adds a mutually exclusive group of
`store_true` flags `--pull` / `--push` / `--tag` / `--list` / `--inspect`
and a positional `images` with `nargs="*"`.  The functions below model the
Python standard library's `parse_known_args` as configured by exactly this
schema: unknown tokens are collected, the first contiguous run of
positional tokens is bound to `images`, later positional runs become
extras, a flag of the exclusive group errors when a different flag of the
group was already seen, a help request or a parse error aborts with
`SystemExit`. -/

/-- The namespace produced by `parse_known_args` for this schema
(`known_args`).  Field defaults are argparse's defaults. -/
structure KnownArgs where
  skip_cache : Bool := false
  run_once : Bool := false
  timeout : Int := 600
  pull : Bool := false
  push : Bool := false
  tag : Bool := false
  list : Bool := false
  inspect : Bool := false
  images : List String := []
  deriving Repr, DecidableEq

/-- Python `str.split()` (split on whitespace, drop empty fragments),
written over the character list so that it reduces in the kernel. -/
def pySplitAux : List Char → List Char → List String
  | [], cur => if cur.isEmpty then [] else [String.mk cur.reverse]
  | c :: cs, cur =>
    if c = ' ' || c = '\t' || c = '\n' || c = '\r' then
      (if cur.isEmpty then [] else [String.mk cur.reverse]) ++ pySplitAux cs []
    else pySplitAux cs (c :: cur)

def pySplit (s : String) : List String := pySplitAux s.data []

/-- `ComponentBase.sanitized_args`: `[i for g in execute for i in g.split()]`. -/
def sanitized_args (execute : List String) : List String :=
  (execute.map pySplit).flatten

/-- argparse's token classification: a token is an optional iff it starts
with `-`, is not `-` alone, and does not look like a negative number
(this parser defines no options that look like negative numbers). -/
def isOptionToken (t : String) : Bool :=
  match t.data with
  | [] => false
  | ['-'] => false
  | '-' :: rest => !(rest.all Char.isDigit)
  | _ => false

/-- Python `int(...)` on a token (sign then decimal digits). -/
def pyParseInt (s : String) : Option Int :=
  let digitsVal (l : List Char) : Nat :=
    l.foldl (fun acc c => acc * 10 + (c.toNat - '0'.toNat)) 0
  match s.data with
  | '-' :: rest =>
    if !rest.isEmpty && rest.all Char.isDigit then some (-(digitsVal rest : Int)) else none
  | '+' :: rest =>
    if !rest.isEmpty && rest.all Char.isDigit then some (digitsVal rest : Int) else none
  | rest =>
    if !rest.isEmpty && rest.all Char.isDigit then some (digitsVal rest : Int) else none

/-- If `t` is `name` `=` `value`, return the value (argparse's
`--option=value` form). -/
def eqAssignAux : List Char → List Char → Option (List Char)
  | [], rest => some rest
  | _ :: _, [] => none
  | p :: ps, c :: cs => if c = p then eqAssignAux ps cs else none

def eqAssign (t name : String) : Option String :=
  (eqAssignAux (name.data ++ ['=']) t.data).map String.mk

/-- `--flag=value` forms that argparse rejects for `store_true`/help
actions of this schema. -/
def isFlagAssign (t : String) : Bool :=
  (eqAssign t "--exec-help").isSome || (eqAssign t "--skip-cache").isSome ||
  (eqAssign t "--run-once").isSome || (eqAssign t "--pull").isSome ||
  (eqAssign t "--push").isSome || (eqAssign t "--tag").isSome ||
  (eqAssign t "--list").isSome || (eqAssign t "--inspect").isSome

/-- Parser state while scanning the token stream.  `posPhase` tracks the
positional `images` (`nargs="*"`): `0` = not started, `1` = in the first
positional run, `2` = that run is over (later positionals are extras).
`pendingTimeout` is set while `--timeout` still awaits its value token. -/
structure PState where
  ka : KnownArgs
  extras : List String
  posPhase : Nat
  pendingTimeout : Bool
  deriving Repr

/-- An option token ends the first positional run. -/
def closeRun (st : PState) : PState :=
  if st.posPhase = 1 then { st with posPhase := 2 } else st

/-- The mutually exclusive action group: for a token naming one of the
five `store_true` flags, return the "another flag of the group was
already seen" conflict test together with the namespace with that flag
set; `none` for every other token. -/
def groupFlagSet (ka : KnownArgs) : String → Option (Bool × KnownArgs)
  | "--pull" => some (ka.push || ka.tag || ka.list || ka.inspect, { ka with pull := true })
  | "--push" => some (ka.pull || ka.tag || ka.list || ka.inspect, { ka with push := true })
  | "--tag" => some (ka.pull || ka.push || ka.list || ka.inspect, { ka with tag := true })
  | "--list" => some (ka.pull || ka.push || ka.tag || ka.inspect, { ka with list := true })
  | "--inspect" => some (ka.pull || ka.push || ka.tag || ka.list, { ka with inspect := true })
  | _ => none

/-- Consume one token of the stream.  When a `--timeout` value is
pending, the token is its argument (argparse errors if it looks like an
option or is not an `int`). -/
def parseStep (t : String) (st : PState) : Except PyErr PState :=
  if st.pendingTimeout then
    if isOptionToken t then Except.error PyErr.systemExit
    else
      match pyParseInt t with
      | some n => Except.ok { st with ka := { st.ka with timeout := n }, pendingTimeout := false }
      | none => Except.error PyErr.systemExit
  else if t = "--exec-help" then Except.error PyErr.systemExit
  else if t = "--skip-cache" then
    Except.ok { closeRun st with ka := { st.ka with skip_cache := true } }
  else if t = "--run-once" then
    Except.ok { closeRun st with ka := { st.ka with run_once := true } }
  else if t = "--timeout" then
    Except.ok { closeRun st with pendingTimeout := true }
  else
    match groupFlagSet st.ka t with
    | some (conflict, ka2) =>
      if conflict then Except.error PyErr.systemExit
      else Except.ok { closeRun st with ka := ka2 }
    | none =>
      match eqAssign t "--timeout" with
      | some v =>
        (match pyParseInt v with
         | some n => Except.ok { closeRun st with ka := { st.ka with timeout := n } }
         | none => Except.error PyErr.systemExit)
      | none =>
        if isFlagAssign t then Except.error PyErr.systemExit
        else if isOptionToken t then
          Except.ok { closeRun st with extras := st.extras ++ [t] }
        else
          match st.posPhase with
          | 0 => Except.ok { st with ka := { st.ka with images := [t] }, posPhase := 1 }
          | 1 => Except.ok { st with ka := { st.ka with images := st.ka.images ++ [t] } }
          | _ => Except.ok { st with extras := st.extras ++ [t] }

/-- One pass of `parse_known_args` over the token list; a dangling
`--timeout` at the end of input is an "expected one argument" error. -/
def parseLoop : List String → PState → Except PyErr (KnownArgs × List String)
  | [], st =>
    if st.pendingTimeout then Except.error PyErr.systemExit
    else Except.ok (st.ka, st.extras)
  | t :: rest, st =>
    match parseStep t st with
    | Except.ok st2 => parseLoop rest st2
    | Except.error e => Except.error e

/-- `exec_parser` (without `arg_vars`): run `parse_known_args` of the
container-image schema on the sanitized tokens.  The `--exec-help` branch
of `exec_parser` is folded into the parse itself (argparse's
`action="help"` exits during parsing). -/
def parseKnownArgs (tokens : List String) : Except PyErr (KnownArgs × List String) :=
  parseLoop tokens { ka := {}, extras := [], posPhase := 0, pendingTimeout := false }

/-! ### Mutual exclusion invariant of the parsed namespace -/

/-- Number of action-group flags set in a namespace. -/
def actionCount (ka : KnownArgs) : Nat :=
  (if ka.pull then 1 else 0) + (if ka.push then 1 else 0) + (if ka.tag then 1 else 0) +
  (if ka.list then 1 else 0) + (if ka.inspect then 1 else 0)

/-! ## `src/components/container_image.py`: `Component.server`

`server(exec_array, data, arg_vars)` begins with
`super().server(exec_array=exec_array, data=data, arg_vars=arg_vars)`.
The base method it resolves to, `ComponentBase.server` in
`src/directord/components/__init__.py`, is declared
`def server(self, exec_string, data, arg_vars)`: Python binds keyword
arguments by parameter name, `exec_array` matches no parameter and
`exec_string` is missing, so the call raises `TypeError` before the base
parse ever runs — every invocation of the container-image `server` fails
this way, and the rest of the method (lines 72-102) is unreachable.

That unreachable remainder is still embedded, because it shows what the
method was written to do: the base-class parse (`self.args();
self.exec_parser(...)`, embedded as `parseKnownArgs` over
`sanitized_args`) with the `arg_vars` overlay, then `data["images"]`,
the `data["action"]` `if/elif` chain over the five flags,
`data["images"]` again (the duplicated line of the source), and the
three validations raising `AttributeError` on the first violated one.
`arg_vars` (Python `known_args.__dict__[key] = value` for an arbitrary
dict) is modelled as an optional namespace-rewriting function; `None` or
an empty dict is `none`. -/

/-- Values stored in the job-record dict. -/
inductive JVal where
  | str : String → JVal
  | strs : List String → JVal
  deriving Repr, DecidableEq

abbrev JobData := List (String × JVal)

/-- Python `"%s" % value` for the stored values. -/
def pyFormatJVal : JVal → String
  | JVal.str s => s
  | JVal.strs l => String.intercalate ", " l

/-- The `data` dict produced by `server` before its validations. -/
def serverData (ka : KnownArgs) (data : JobData) : JobData :=
  let d1 := setA data "images" (JVal.strs ka.images)
  let d2 :=
    if ka.pull then setA d1 "action" (JVal.str "pull")
    else if ka.push then setA d1 "action" (JVal.str "push")
    else if ka.tag then setA d1 "action" (JVal.str "tag")
    else if ka.list then setA d1 "action" (JVal.str "list")
    else if ka.inspect then setA d1 "action" (JVal.str "inspect")
    else d1
  setA d2 "images" (JVal.strs ka.images)

/-- The validations of `server`, in source order; returns the first
raised error, if any.  (The `--list` message is a bytes literal in the
source, `b"Cannot specify images with --list."`.) -/
def serverCheck (ka : KnownArgs) (d : JobData) : Option PyErr :=
  if ka.tag && ka.images.length != 2 then
    some (PyErr.attributeError "Must specify exactly 2 images to tag.")
  else if (ka.push || ka.pull || ka.inspect) && ka.images.length == 0 then
    (match lookupA d "action" with
     | some v =>
       some (PyErr.attributeError
         ("Must specify exactly at least one image to " ++ pyFormatJVal v ++ "."))
     | none => some PyErr.keyError)
  else if ka.list && !ka.images.isEmpty then
    some (PyErr.attributeError "Cannot specify images with --list.")
  else none

/-- The `arg_vars` overlay of `exec_parser` (`known_args.__dict__[key] =
value` per entry), as an opaque rewriting of the namespace; Python
`if arg_vars:` falsy means `none`. -/
def applyArgVars : Option (KnownArgs → KnownArgs) → KnownArgs → KnownArgs
  | some f, ka => f ka
  | none, ka => ka

/-- The call `super().server(exec_array=exec_array, data=data,
arg_vars=arg_vars)` at `src/components/container_image.py:71`, bound
against `ComponentBase.server(self, exec_string, data, arg_vars)`: the
keyword `exec_array` names no parameter of the callee and the required
`exec_string` is absent, so Python raises `TypeError` without entering
the base method; the arguments are never consumed. -/
def superServerBinding (_exec_array : List String) (_data : JobData)
    (_arg_vars : Option (KnownArgs → KnownArgs)) :
    Except PyErr (KnownArgs × List String) :=
  Except.error PyErr.typeError

namespace ContainerImage

/-- The body of `Component.server` past the `super()` call (the
unreachable lines 72-102), given the parsed namespace the base method
was written to provide: build the record, then raise the first violated
validation. -/
def serverAfterParse (ka : KnownArgs) (data : JobData) : Except PyErr JobData :=
  match serverCheck ka (serverData ka data) with
  | some e => Except.error e
  | none => Except.ok (serverData ka data)

/-- `Component.server` of the container-image component: the opening
`super().server(exec_array=...)` call raises `TypeError` (see
`superServerBinding`), so the remainder of the method never runs. -/
def server (exec_array : List String) (data : JobData)
    (arg_vars : Option (KnownArgs → KnownArgs)) : Except PyErr JobData :=
  match superServerBinding exec_array data arg_vars with
  | Except.error e => Except.error e
  | Except.ok (ka0, _unknown) => serverAfterParse (applyArgVars arg_vars ka0) data

end ContainerImage

/-! ## `ComponentBase.blueprinter` and `ComponentBase.file_blueprinter`

`blueprinter(content, values)`: when `values` is truthy (a non-empty
dict) the content is rendered as a jinja2 template, any rendering
exception is caught, logged at critical severity and turned into `None`;
otherwise `content` is returned unchanged.  The jinja2 engine is an
external collaborator, modelled as a `render` oracle that either returns
rendered text or fails.  `values` is `Option Values`: `none` is Python
`None` (e.g. `cache.get("args")` on a missing key), `some []` an empty
dict; both are falsy. -/

abbrev Values := List (String × String)

/-- Python truthiness of the `values` argument. -/
def truthyVals : Option Values → Bool
  | some (_ :: _) => true
  | _ => false

/-- `ComponentBase.blueprinter`. -/
def blueprinter (render : String → Values → Except String String)
    (content : String) (values : Option Values) : Option String :=
  match values with
  | some (p :: rest) =>
    (match render content (p :: rest) with
     | Except.ok r => some r
     | Except.error _ => none)
  | _ => some content

/-! `file_blueprinter(cache, file_to)` reads the file, blueprints its
contents against `cache.get("args")`, returns `False` when the result is
falsy (`None` — a render failure — but also the empty string), otherwise
writes the result back and returns `True`; every raised `Exception`
(read or write failure) is caught, logged, and turned into `False`.  The
filesystem is an association list path → contents (reading a missing
path raises, i.e. yields the `False` branch), and a possible write
failure is an oracle `write_error`. -/

abbrev FS := List (String × String)

/-- `ComponentBase.file_blueprinter`. -/
def file_blueprinter (render : String → Values → Except String String)
    (cache_args : Option Values) (write_error : Option String)
    (fs : FS) (file_to : String) : Bool × FS :=
  match lookupA fs file_to with
  | none => (false, fs)
  | some content =>
    match blueprinter render content cache_args with
    | none => (false, fs)
    | some file_contents =>
      if file_contents = "" then (false, fs)
      else
        match write_error with
        | some _ => (false, fs)
        | none => (true, setA fs file_to file_contents)

/-! ## The two `run_command` implementations

`ComponentBase.run_command` (src/directord/components/__init__.py):
`if env: _env = dict(os.environ); _env.update(env); env = _env
 else: env = os.environ` — a truthy `env` is merged over a copy of the
ambient environment.  `director/utils.py run_command`:
`if env is None: env = os.environ` — a supplied `env` is handed to the
process as the whole environment.  Both then run the process and
compare its return code against `return_codes` (`None` defaulting to
`[0]`; `ComponentBase` additionally wraps a bare `int` into a
one-element list, `director/utils` does not).  The spawned process is an
oracle `ProcOutcome` (return code and the bytes `communicate()`
produced). -/

abbrev EnvMap := List (String × String)

/-- The environment `ComponentBase.run_command` hands to `Popen`. -/
def componentbase_effective_env (ambient : EnvMap) (env : Option EnvMap) : EnvMap :=
  match env with
  | some (p :: rest) => dictUpdate ambient (p :: rest)
  | _ => ambient

/-- The environment `director/utils.py run_command` hands to `Popen`. -/
def utils_effective_env (ambient : EnvMap) (env : Option EnvMap) : EnvMap :=
  match env with
  | none => ambient
  | some e => e

/-- What the external process did: its exit code and the captured
streams returned by `communicate()`. -/
structure ProcOutcome where
  returncode : Int
  output : String
  error : String

/-- The dynamic type of the `return_codes` argument. -/
inductive RetCodes where
  | noneV : RetCodes
  | intV : Int → RetCodes
  | listV : List Int → RetCodes
  deriving Repr, DecidableEq

/-- Result of `ComponentBase.run_command`: `None` defaults to `[0]`, a
bare `int` becomes a one-element list, then
`(output, error, returncode in return_codes)`. -/
def componentbase_run_command_result (proc : ProcOutcome) (return_codes : RetCodes) :
    String × String × Bool :=
  let rcs : List Int :=
    match return_codes with
    | RetCodes.noneV => [0]
    | RetCodes.intV n => [n]
    | RetCodes.listV l => l
  if proc.returncode ∈ rcs then (proc.output, proc.error, true)
  else (proc.output, proc.error, false)

/-- Result of `director/utils.py run_command`: `None` defaults to `[0]`,
but a bare `int` reaches `process.returncode not in return_codes`, where
Python raises `TypeError` (`argument of type 'int' is not iterable`);
on success `(output, True)`, on failure `(error, False)`. -/
def utils_run_command_result (proc : ProcOutcome) (return_codes : RetCodes) :
    Except PyErr (String × Bool) :=
  match return_codes with
  | RetCodes.intV _ => Except.error PyErr.typeError
  | RetCodes.noneV =>
    if proc.returncode ∈ ([0] : List Int) then Except.ok (proc.output, true)
    else Except.ok (proc.error, false)
  | RetCodes.listV l =>
    if proc.returncode ∈ l then Except.ok (proc.output, true)
    else Except.ok (proc.error, false)

/-! ## `ComponentBase.set_cache` and the merge-update semantics -/

/-- A cached Python value: an int, a string, or a nested dict. -/
inductive CVal where
  | int : Int → CVal
  | str : String → CVal
  | dict : List (String × CVal) → CVal

mutual
/-- Modelled from the spec: `directord.utils.merge_dict`, imported by
`ComponentBase.set_cache`, is code of this repository whose module is not
among the sources; per the spec it computes the "recursive merge of the
old and new mapping (old keys preserved unless overwritten, nested
mappings merged recursively)".  A non-dict new value, or a new dict
merged into a non-dict, simply replaces the old value. -/
def merge_dict : CVal → CVal → CVal
  | CVal.dict bl, CVal.dict nl => CVal.dict (merge_dict_list bl nl)
  | _, n => n

/-- Fold the entries of the new dict into the base dict, recursively
merging values present on both sides. -/
def merge_dict_list (bl : List (String × CVal)) : List (String × CVal) → List (String × CVal)
  | [] => bl
  | (k, nv) :: rest =>
    let merged :=
      match lookupA bl k with
      | some bv => merge_dict bv nv
      | none => nv
    merge_dict_list (setA bl k merged) rest
end

/-- One entry of the cache store: value, tag and expire time, per the
cache interface of the spec (§3 CacheEntry, §4.2 operations). -/
structure CacheEntry where
  value : CVal
  tag : Option String
  expire : Nat

/-- The cache store: a mapping from key to entry (the `diskcache.Cache`
external collaborator, modelled per the spec's §4.2 interface). -/
abbrev Cache := List (String × CacheEntry)

/-- `cache.pop(key, default=...)`: remove and return the stored value,
or the default when the key is absent. -/
def cache_pop (c : Cache) (k : String) (default : CVal) : CVal × Cache :=
  match lookupA c k with
  | some e => (e.value, removeA c k)
  | none => (default, c)

/-- `cache.set(key, value, tag=..., expire=...)`: store the value under
the key with exactly the given tag and expire time. -/
def cache_set (c : Cache) (k : String) (v : CVal) (tag : Option String) (expire : Nat) :
    Cache :=
  setA c k ⟨v, tag, expire⟩

/-- `ComponentBase.set_cache`: with `value_update` the stored mapping is
popped (defaulting to an empty dict) and recursively merged with the new
value before the `cache.set`; Python defaults `value_update=False`,
`expire=28800`, `tag=None`. -/
def set_cache (cache : Cache) (key : String) (value : CVal)
    (value_update : Bool := false) (expire : Nat := 28800)
    (tag : Option String := none) : Cache :=
  if value_update then
    let pr := cache_pop cache key (CVal.dict [])
    cache_set pr.2 key (merge_dict pr.1 value) tag expire
  else
    cache_set cache key value tag expire

/-! ## Theorems -/

theorem lookupA_setA_self {α : Type} (d : List (String × α)) (k : String) (v : α) :
    lookupA (setA d k v) k = some v := by
  induction d with
  | nil => simp [setA, lookupA]
  | cons p rest ih =>
    obtain ⟨k0, v0⟩ := p
    by_cases h : k0 = k
    · simp [setA, h, lookupA]
    · simp [setA, h, lookupA, ih]

theorem lookupA_setA_other {α : Type} (d : List (String × α)) (k q : String) (v : α)
    (h : q ≠ k) : lookupA (setA d k v) q = lookupA d q := by
  induction d with
  | nil => simp [setA, lookupA, Ne.symm h]
  | cons p rest ih =>
    obtain ⟨k0, v0⟩ := p
    by_cases h0 : k0 = k
    · subst h0
      simp [setA, lookupA, Ne.symm h]
    · simp [setA, h0, lookupA, ih]

theorem lookupA_dictUpdate_not_mem {α : Type} (e d : List (String × α)) (k : String)
    (h : ∀ p ∈ e, p.1 ≠ k) : lookupA (dictUpdate d e) k = lookupA d k := by
  induction e generalizing d with
  | nil => simp [dictUpdate]
  | cons p rest ih =>
    have hrest : ∀ q ∈ rest, q.1 ≠ k := fun q hq => h q (List.mem_cons_of_mem p hq)
    have hp : p.1 ≠ k := h p (List.mem_cons_self p rest)
    show lookupA (dictUpdate (setA d p.1 p.2) rest) k = lookupA d k
    rw [ih (setA d p.1 p.2) hrest, lookupA_setA_other _ _ _ _ (fun e1 => hp e1.symm)]

theorem lookupA_dictUpdate_mem {α : Type} (e d : List (String × α)) (k : String)
    (h : ∃ p ∈ e, p.1 = k) :
    ∃ v, lookupA (dictUpdate d e) k = some v ∧ (k, v) ∈ e := by
  induction e generalizing d with
  | nil => simp at h
  | cons p rest ih =>
    by_cases hrest : ∃ q ∈ rest, q.1 = k
    · obtain ⟨v, hv, hmem⟩ := ih (setA d p.1 p.2) hrest
      exact ⟨v, hv, List.mem_cons_of_mem p hmem⟩
    · have hp : p.1 = k := by
        obtain ⟨q, hq, hqk⟩ := h
        rcases List.mem_cons.mp hq with h1 | h1
        · rw [← h1]; exact hqk
        · exact absurd ⟨q, h1, hqk⟩ hrest
      have hall : ∀ q ∈ rest, q.1 ≠ k := by
        intro q hq hqk
        exact hrest ⟨q, hq, hqk⟩
      refine ⟨p.2, ?_, ?_⟩
      · show lookupA (dictUpdate (setA d p.1 p.2) rest) k = some p.2
        rw [lookupA_dictUpdate_not_mem rest _ k hall, hp, lookupA_setA_self]
      · have : p = (k, p.2) := by
          obtain ⟨p1, p2⟩ := p
          simp only at hp
          rw [hp]
        rw [← this]
        exact List.mem_cons_self p rest

/-- Claim C1: a `ClientStatus` session emits exactly two messages per job:
on acquisition the three-frame message `(job_id, processing-marker,
nullbyte)`, and on release — on every exit path, whether or not the body
raised — exactly one final three-frame message `(job_id, job_state, info)`
holding whatever `job_state`/`info` were last set, each slot starting out
as the nullbyte placeholder. -/
theorem clientstatus_emits_exactly_two_messages {ε : Type} (ctx : Ctx) (job_id : String)
    (body : CStat → CStat × Option ε) :
    (withClientStatus ctx job_id body).1 =
      [[job_id, ctx.job_processing, ctx.nullbyte],
       [(body (clientStatusInit ctx job_id)).1.job_id,
        (body (clientStatusInit ctx job_id)).1.job_state,
        (body (clientStatusInit ctx job_id)).1.info]] ∧
    (clientStatusInit ctx job_id).job_state = ctx.nullbyte ∧
    (clientStatusInit ctx job_id).info = ctx.nullbyte := by
  exact ⟨rfl, rfl, rfl⟩

/-- Claim C9: `ClientStatus.__exit__` does not suppress exceptions: the
final status message is still sent (it is the last message of the trace),
the exit handler's return value is falsy, and the exception leaving the
`with` statement is exactly the exception the body raised. -/
theorem clientstatus_exit_does_not_suppress {ε : Type} (ctx : Ctx) (job_id : String)
    (body : CStat → CStat × Option ε) :
    (withClientStatus ctx job_id body).2 = (body (clientStatusInit ctx job_id)).2 ∧
    pyTruthyRet clientStatusExitRet = false ∧
    (withClientStatus ctx job_id body).1.getLast? =
      some (clientStatusExitMsg (body (clientStatusInit ctx job_id)).1) := by
  exact ⟨rfl, rfl, rfl⟩

theorem closeRun_ka (st : PState) : (closeRun st).ka = st.ka := by
  unfold closeRun
  split <;> rfl

theorem groupFlagSet_count (ka : KnownArgs) (t : String) (ka2 : KnownArgs)
    (h : groupFlagSet ka t = some (false, ka2)) : actionCount ka2 ≤ 1 := by
  unfold groupFlagSet at h
  split at h <;>
    first
      | (rw [Option.some.injEq, Prod.mk.injEq] at h
         obtain ⟨hc, rfl⟩ := h
         simp only [Bool.or_eq_false_iff] at hc
         obtain ⟨⟨⟨h1, h2⟩, h3⟩, h4⟩ := hc
         simp [actionCount, h1, h2, h3, h4])
      | simp at h

theorem parseStep_actionCount (t : String) (st st2 : PState) (h : actionCount st.ka ≤ 1)
    (hs : parseStep t st = Except.ok st2) : actionCount st2.ka ≤ 1 := by
  unfold parseStep at hs
  repeat' split at hs
  all_goals first
    | exact Except.noConfusion hs
    | (injection hs with hs; subst hs)
  all_goals first
    | simpa [actionCount, closeRun_ka] using h
    | (rename_i conflict ka2 heq hconf
       rw [Bool.not_eq_true] at hconf
       subst hconf
       exact groupFlagSet_count st.ka t ka2 heq)

/-- `parse_known_args` never reports more than one of the mutually
exclusive action flags as chosen. -/
theorem parseLoop_actionCount : ∀ ts st, actionCount st.ka ≤ 1 → ∀ ka u,
    parseLoop ts st = Except.ok (ka, u) → actionCount ka ≤ 1 := by
  intro ts
  induction ts with
  | nil =>
    intro st h ka u hok
    unfold parseLoop at hok
    split at hok
    · exact Except.noConfusion hok
    · rw [Except.ok.injEq, Prod.mk.injEq] at hok
      obtain ⟨rfl, rfl⟩ := hok
      exact h
  | cons t rest ih =>
    intro st h ka u hok
    unfold parseLoop at hok
    cases hstep : parseStep t st with
    | ok st2 =>
      rw [hstep] at hok
      exact ih st2 (parseStep_actionCount t st st2 h hstep) ka u hok
    | error e =>
      rw [hstep] at hok
      exact Except.noConfusion hok

theorem parseKnownArgs_actionCount (ts : List String) (ka : KnownArgs) (u : List String)
    (h : parseKnownArgs ts = Except.ok (ka, u)) : actionCount ka ≤ 1 := by
  exact parseLoop_actionCount ts _ (by simp [actionCount]) ka u h

theorem lookupA_serverData_images (ka : KnownArgs) (d0 : JobData) :
    lookupA (serverData ka d0) "images" = some (JVal.strs ka.images) := by
  unfold serverData
  exact lookupA_setA_self _ _ _

theorem lookupA_action_of_set (d1 : JobData) (v : JVal) (imgs : JVal) :
    lookupA (setA (setA d1 "action" v) "images" imgs) "action" = some v := by
  rw [lookupA_setA_other _ _ _ _ (by decide), lookupA_setA_self]

theorem serverData_action_key (ka : KnownArgs) (d0 : JobData)
    (hflag : (ka.pull || ka.push || ka.tag || ka.list || ka.inspect) = true) :
    ∃ v, lookupA (serverData ka d0) "action" = some v := by
  unfold serverData
  by_cases h1 : ka.pull
  · exact ⟨JVal.str "pull", by simp only [h1, if_true]; exact lookupA_action_of_set _ _ _⟩
  · by_cases h2 : ka.push
    · exact ⟨JVal.str "push", by
        simp only [h1, h2, if_true, Bool.false_eq_true, if_false]
        exact lookupA_action_of_set _ _ _⟩
    · by_cases h3 : ka.tag
      · exact ⟨JVal.str "tag", by
          simp only [h1, h2, h3, if_true, Bool.false_eq_true, if_false]
          exact lookupA_action_of_set _ _ _⟩
      · by_cases h4 : ka.list
        · exact ⟨JVal.str "list", by
            simp only [h1, h2, h3, h4, if_true, Bool.false_eq_true, if_false]
            exact lookupA_action_of_set _ _ _⟩
        · by_cases h5 : ka.inspect
          · exact ⟨JVal.str "inspect", by
              simp only [h1, h2, h3, h4, h5, if_true, Bool.false_eq_true, if_false]
              exact lookupA_action_of_set _ _ _⟩
          · exfalso
            simp only [Bool.eq_false_iff] at h1 h2 h3 h4 h5
            simp [h1, h2, h3, h4, h5] at hflag

/-- The mutual-exclusion invariant pointwise: if `--tag` was chosen, no
other action flag is set. -/
theorem tag_excludes_others (ka : KnownArgs) (hcount : actionCount ka ≤ 1)
    (htag : ka.tag = true) :
    ka.pull = false ∧ ka.push = false ∧ ka.list = false ∧ ka.inspect = false := by
  unfold actionCount at hcount
  rw [htag] at hcount
  by_cases h1 : ka.pull <;> by_cases h2 : ka.push <;> by_cases h3 : ka.list <;>
    by_cases h4 : ka.inspect <;> simp_all

/-- What the unreachable remainder of `Component.server` was written to
do on a `--tag` parse: for any exec array whose parse chooses `--tag`,
`serverAfterParse` returns the record with `action = "tag"` and the two
image tokens in order when there are exactly two of them, and raises
`AttributeError "Must specify exactly 2 images to tag."` otherwise.
Supporting evidence that the spec's tag scenario is the code's intent
and the `exec_array` keyword of the `super()` call the slip. -/
theorem serverAfterParse_tag_spec (ea : List String) (d0 : JobData)
    (ka : KnownArgs) (u : List String)
    (hp : parseKnownArgs (sanitized_args ea) = Except.ok (ka, u))
    (htag : ka.tag = true) :
    (∀ a b, ka.images = [a, b] →
      ContainerImage.serverAfterParse ka d0 = Except.ok (serverData ka d0) ∧
      lookupA (serverData ka d0) "action" = some (JVal.str "tag") ∧
      lookupA (serverData ka d0) "images" = some (JVal.strs [a, b])) ∧
    (ka.images.length ≠ 2 →
      ContainerImage.serverAfterParse ka d0 =
        Except.error (PyErr.attributeError "Must specify exactly 2 images to tag.")) := by
  have hcount := parseKnownArgs_actionCount _ ka u hp
  obtain ⟨hpull, hpush, hlist, hinspect⟩ := tag_excludes_others ka hcount htag
  constructor
  · intro a b himg
    have hchk : serverCheck ka (serverData ka d0) = none := by
      unfold serverCheck
      simp [htag, himg, hpull, hpush, hlist, hinspect]
    refine ⟨?_, ?_, ?_⟩
    · unfold ContainerImage.serverAfterParse
      rw [hchk]
    · unfold serverData
      simp only [hpull, htag, hpush, Bool.false_eq_true, if_false, if_true]
      exact lookupA_action_of_set _ _ _
    · rw [lookupA_serverData_images, himg]
  · intro hlen
    have hchk : serverCheck ka (serverData ka d0) =
        some (PyErr.attributeError "Must specify exactly 2 images to tag.") := by
      unfold serverCheck
      simp [htag, hlen]
    unfold ContainerImage.serverAfterParse
    rw [hchk]

/-- Claim C2, failing input: the spec's own exec strings.  The opening
`super().server(exec_array=...)` call of `Component.server` is rejected
by `ComponentBase.server`, whose parameter is named `exec_string`, so
both calls raise `TypeError` before any parse or validation — neither
the tag record nor the `"Must specify exactly 2 images to tag."` error
is ever produced.  The remaining conjuncts evaluate the unreachable
remainder at the very namespaces the base parse would have produced,
showing what the claim describes is the intent of the dead code. -/
theorem containerimage_server_tag_raises_typeerror :
    ContainerImage.server ["--tag img:old img:new"] [] none =
      Except.error PyErr.typeError ∧
    ContainerImage.server ["--tag img:only"] [] none =
      Except.error PyErr.typeError ∧
    parseKnownArgs (sanitized_args ["--tag img:old img:new"]) =
      Except.ok ({ tag := true, images := ["img:old", "img:new"] }, []) ∧
    ContainerImage.serverAfterParse { tag := true, images := ["img:old", "img:new"] } [] =
      Except.ok [("images", JVal.strs ["img:old", "img:new"]), ("action", JVal.str "tag")] ∧
    parseKnownArgs (sanitized_args ["--tag img:only"]) =
      Except.ok ({ tag := true, images := ["img:only"] }, []) ∧
    ContainerImage.serverAfterParse { tag := true, images := ["img:only"] } [] =
      Except.error (PyErr.attributeError "Must specify exactly 2 images to tag.") :=
  ⟨rfl, rfl, rfl, rfl, rfl, rfl⟩

/-- Claim C6, failing input: every exec array.  `Component.server`
raises `TypeError` from its `super().server(exec_array=...)` call before
building or validating anything, so no JobRecord — with or without an
`"action"` key — is ever returned by the server operation, and none of
the record invariants is ever checked there. -/
theorem containerimage_server_never_returns_record (ea : List String) (d0 : JobData)
    (av : Option (KnownArgs → KnownArgs)) :
    ContainerImage.server ea d0 av = Except.error PyErr.typeError := rfl

theorem blueprinter_falsy (render : String → Values → Except String String)
    (content : String) (values : Option Values) (h : truthyVals values = false) :
    blueprinter render content values = some content := by
  cases values with
  | none => rfl
  | some vs =>
    cases vs with
    | nil => rfl
    | cons p rest => simp [truthyVals] at h

/-- Claim C3: with an empty or absent `values` mapping, `blueprinter`
returns `content` unchanged (never `None`); with a non-empty mapping it
returns the rendered text on success and `None` on any rendering failure,
the exception never escaping the boundary. -/
theorem blueprinter_spec (render : String → Values → Except String String)
    (content : String) (values : Option Values) :
    (truthyVals values = false → blueprinter render content values = some content) ∧
    (∀ vs, values = some vs → truthyVals values = true →
      (∀ r, render content vs = Except.ok r → blueprinter render content values = some r) ∧
      (∀ e, render content vs = Except.error e → blueprinter render content values = none)) := by
  refine ⟨blueprinter_falsy render content values, ?_⟩
  intro vs hv ht
  subst hv
  cases vs with
  | nil => simp [truthyVals] at ht
  | cons p rest =>
    constructor
    · intro r hr
      simp [blueprinter, hr]
    · intro e he
      simp [blueprinter, he]

/-- Witness for C3: pass-through on absent values; `None` on a failing
render with non-empty values. -/
theorem blueprinter_spec_witness :
    blueprinter (fun c _ => Except.ok c) "payload" none = some "payload" ∧
    blueprinter (fun _ _ => Except.error "syntax error") "payload" (some [("k", "v")]) =
      none :=
  ⟨(blueprinter_spec (fun c _ => Except.ok c) "payload" none).1 rfl,
   ((blueprinter_spec (fun _ _ => Except.error "syntax error") "payload"
      (some [("k", "v")])).2 [("k", "v")] rfl rfl).2 "syntax error" rfl⟩

/-- Counterexample for C4: the file exists with empty contents and no
template values are cached — the pass-through "success" case of the
claim — yet `file_blueprinter` returns `False` and writes nothing,
because `if not file_contents` treats the empty string as falsy. -/
theorem file_blueprinter_empty_passthrough_counterexample :
    file_blueprinter (fun c _ => Except.ok c) none none [("f", "")] "f" =
      (false, [("f", "")]) ∧
    lookupA [("f", "")] "f" = some "" ∧ truthyVals none = false :=
  ⟨rfl, rfl, rfl⟩

/-- Claim C4 (amended): `file_blueprinter` returns `false` on every
read, render, or write failure, and also when the (rendered) contents
are empty; on success — including the pass-through case with no cached
template values, provided the contents are non-empty — the contents are
written back and it returns `true`. -/
theorem file_blueprinter_spec (render : String → Values → Except String String)
    (args : Option Values) (werr : Option String) (fs : FS) (p : String) :
    (lookupA fs p = none → file_blueprinter render args werr fs p = (false, fs)) ∧
    (∀ content, lookupA fs p = some content → blueprinter render content args = none →
      file_blueprinter render args werr fs p = (false, fs)) ∧
    (∀ content r w, lookupA fs p = some content → blueprinter render content args = some r →
      r ≠ "" → werr = some w → file_blueprinter render args werr fs p = (false, fs)) ∧
    (∀ content, lookupA fs p = some content → truthyVals args = false → content ≠ "" →
      werr = none → file_blueprinter render args werr fs p = (true, setA fs p content)) ∧
    (∀ content vs r, lookupA fs p = some content → args = some vs →
      truthyVals args = true → render content vs = Except.ok r → r ≠ "" → werr = none →
      file_blueprinter render args werr fs p = (true, setA fs p r)) := by
  refine ⟨?_, ?_, ?_, ?_, ?_⟩
  · intro h1
    simp [file_blueprinter, h1]
  · intro content h1 h2
    simp [file_blueprinter, h1, h2]
  · intro content r w h1 h2 h3 h4
    simp [file_blueprinter, h1, h2, h3, h4]
  · intro content h1 h2 h3 h4
    simp [file_blueprinter, h1, blueprinter_falsy render content args h2, h3, h4]
  · intro content vs r h1 hv ht hr h3 h4
    subst hv
    cases vs with
    | nil => simp [truthyVals] at ht
    | cons q rest => simp [file_blueprinter, h1, blueprinter, hr, h3, h4]

/-- Witness for C4 (amended): non-empty contents, no cached values —
the unchanged contents are written back and the call returns `true`. -/
theorem file_blueprinter_spec_witness :
    file_blueprinter (fun c _ => Except.ok c) none none [("f", "hello")] "f" =
      (true, [("f", "hello")]) :=
  (file_blueprinter_spec (fun c _ => Except.ok c) none none [("f", "hello")] "f").2.2.2.1
    "hello" rfl rfl (by decide) rfl

/-- Counterexample for C5: `director/utils run_command` with the
non-empty overlay `{FOO: 1}` passes it as the entire environment — the
ambient variable `PATH` is dropped, not preserved. -/
theorem utils_run_command_env_counterexample :
    utils_effective_env [("PATH", "/bin")] (some [("FOO", "1")]) = [("FOO", "1")] ∧
    lookupA (utils_effective_env [("PATH", "/bin")] (some [("FOO", "1")])) "PATH" = none :=
  ⟨rfl, rfl⟩

/-- Claim C5 (amended): for a non-empty environment mapping,
`ComponentBase.run_command` merges it over the ambient environment —
ambient variables not named in the overlay are preserved, overlay keys
take the overlay's values — while `director/utils run_command` replaces
the ambient environment with the supplied mapping wholesale. -/
theorem run_command_env_overlay (ambient e : EnvMap) (h : e ≠ []) :
    (∀ k, (∀ p ∈ e, p.1 ≠ k) →
      lookupA (componentbase_effective_env ambient (some e)) k = lookupA ambient k) ∧
    (∀ k, (∃ p ∈ e, p.1 = k) →
      ∃ v, lookupA (componentbase_effective_env ambient (some e)) k = some v ∧ (k, v) ∈ e) ∧
    utils_effective_env ambient (some e) = e := by
  cases e with
  | nil => exact absurd rfl h
  | cons p rest =>
    refine ⟨?_, ?_, rfl⟩
    · intro k hk
      exact lookupA_dictUpdate_not_mem (p :: rest) ambient k hk
    · intro k hk
      exact lookupA_dictUpdate_mem (p :: rest) ambient k hk

/-- Witness for C5 (amended): `HOME` survives the merge in the
`ComponentBase` variant; the `utils` variant returns the overlay alone. -/
theorem run_command_env_overlay_witness :
    lookupA (componentbase_effective_env [("PATH", "/bin"), ("HOME", "/root")]
      (some [("FOO", "1"), ("PATH", "/opt")])) "HOME" = some "/root" ∧
    utils_effective_env [("PATH", "/bin"), ("HOME", "/root")]
      (some [("FOO", "1"), ("PATH", "/opt")]) = [("FOO", "1"), ("PATH", "/opt")] := by
  have h := run_command_env_overlay [("PATH", "/bin"), ("HOME", "/root")]
    [("FOO", "1"), ("PATH", "/opt")] (by decide)
  exact ⟨h.1 "HOME" (by decide), h.2.2⟩

/-- Claim C8, failing input: `director/utils run_command` with
`return_codes=0` — an integer, the very type its docstring names —
raises `TypeError` instead of treating `0` as the one-element set `{0}`,
even though the process exited 0; `ComponentBase.run_command` on the
same input returns success as the claim describes. -/
theorem utils_run_command_int_return_codes_type_error :
    utils_run_command_result ⟨0, "out", "err"⟩ (RetCodes.intV 0) =
      Except.error PyErr.typeError ∧
    componentbase_run_command_result ⟨0, "out", "err"⟩ (RetCodes.intV 0) =
      ("out", "err", true) :=
  ⟨rfl, rfl⟩

/-- Claim C7: `set_cache` with `value_update=true` stores, under the
key, the recursive merge of the previously stored mapping (the empty
mapping when the key is absent) with the new mapping, under the default
expiration of 28800 seconds; and the merge itself preserves old keys
unless overwritten and merges nested mappings recursively, as on the
spec's own example. -/
theorem set_cache_value_update_merges (c : Cache) (k : String) (v : CVal) :
    (∀ e0, lookupA c k = some e0 →
      lookupA (set_cache c k v true) k = some ⟨merge_dict e0.value v, none, 28800⟩) ∧
    (lookupA c k = none →
      lookupA (set_cache c k v true) k = some ⟨merge_dict (CVal.dict []) v, none, 28800⟩) ∧
    merge_dict (CVal.dict [("a", CVal.int 1), ("b", CVal.dict [("c", CVal.int 2)])])
        (CVal.dict [("b", CVal.dict [("d", CVal.int 3)])]) =
      CVal.dict [("a", CVal.int 1), ("b", CVal.dict [("c", CVal.int 2), ("d", CVal.int 3)])] := by
  refine ⟨?_, ?_, rfl⟩
  · intro e0 h
    have hpop : cache_pop c k (CVal.dict []) = (e0.value, removeA c k) := by
      unfold cache_pop
      rw [h]
    simp only [set_cache, if_true]
    rw [hpop]
    exact lookupA_setA_self _ _ _
  · intro h
    have hpop : cache_pop c k (CVal.dict []) = (CVal.dict [], c) := by
      unfold cache_pop
      rw [h]
    simp only [set_cache, if_true]
    rw [hpop]
    exact lookupA_setA_self _ _ _

/-- Witness for C7 at the spec's merge example, with the key present. -/
theorem set_cache_value_update_merges_witness :
    lookupA (set_cache
        [("args", ⟨CVal.dict [("a", CVal.int 1), ("b", CVal.dict [("c", CVal.int 2)])],
          none, 100⟩)]
        "args" (CVal.dict [("b", CVal.dict [("d", CVal.int 3)])]) true) "args" =
      some ⟨CVal.dict [("a", CVal.int 1), ("b", CVal.dict [("c", CVal.int 2), ("d", CVal.int 3)])],
        none, 28800⟩ :=
  (set_cache_value_update_merges
      [("args", ⟨CVal.dict [("a", CVal.int 1), ("b", CVal.dict [("c", CVal.int 2)])], none, 100⟩)]
      "args" (CVal.dict [("b", CVal.dict [("d", CVal.int 3)])])).1
    ⟨CVal.dict [("a", CVal.int 1), ("b", CVal.dict [("c", CVal.int 2)])], none, 100⟩ rfl

/-- Claim C10: a merge-update is pop-then-set, so the entry after it
carries exactly the tag and expiry supplied by the call (the defaults
`tag=None`, `expire=28800` when omitted); whatever tag or remaining
expiry the key had before is discarded. -/
theorem set_cache_merge_update_discards_tag_expire (c : Cache) (k : String) (v : CVal)
    (expire : Nat) (tag : Option String) (e0 : CacheEntry) (h : lookupA c k = some e0) :
    ∃ e1, lookupA (set_cache c k v true expire tag) k = some e1 ∧
      e1.value = merge_dict e0.value v ∧ e1.tag = tag ∧ e1.expire = expire := by
  refine ⟨⟨merge_dict e0.value v, tag, expire⟩, ?_, rfl, rfl, rfl⟩
  have hpop : cache_pop c k (CVal.dict []) = (e0.value, removeA c k) := by
    unfold cache_pop
    rw [h]
  simp only [set_cache, if_true]
  rw [hpop]
  exact lookupA_setA_self _ _ _

/-- Witness for C10: an entry with tag `"oldtag"` and expiry 99 is
merge-updated with the defaults; the stored entry has tag `None` and
expiry 28800. -/
theorem set_cache_merge_update_discards_tag_expire_witness :
    ∃ e1, lookupA (set_cache [("k", ⟨CVal.int 5, some "oldtag", 99⟩)] "k" (CVal.int 7) true)
        "k" = some e1 ∧
      e1.value = merge_dict (CVal.int 5) (CVal.int 7) ∧ e1.tag = none ∧ e1.expire = 28800 :=
  set_cache_merge_update_discards_tag_expire [("k", ⟨CVal.int 5, some "oldtag", 99⟩)]
    "k" (CVal.int 7) 28800 none ⟨CVal.int 5, some "oldtag", 99⟩ rfl
